import Mathlib

/-!
Shallow embedding of the Vena ETL python client (src/vepi/vena_etl.py and
src/main.py) for checking the natural-language specification.

HTTP calls are modelled by their observable outcomes: each call site takes the
outcome the remote side would produce (a status code plus decoded body, or a
transport-level exception) as a parameter.  Loops that the source writes as
`while True` are embedded as fuel-indexed total functions returning `none`
exactly when the fuel runs out before the source loop would have terminated.
String formatting of logged messages is abbreviated but keeps the same
structure (prefix plus parsed server detail) as the source.
-/

namespace VepiSpec

/-- Outcome of one HTTP GET against the bare status endpoint
(`/etl/jobs/\x7bid\x7d/status`), as observed by a polling loop in the source.
`ok s` is a 2xx response whose JSON body decodes to the string `s`;
`httpError` is a non-2xx response (so that `raise_for_status` raises an
`HTTPError` carrying the response, whose body may or may not parse as JSON);
`netError` is a transport-level `RequestException` with no response attached. -/
inductive CheckOutcome where
  | ok (status : String)
  | httpError (jsonBody : Option String) (text : String)
  | netError (msg : String)
deriving DecidableEq

/-- Outcome of the single extended-error-detail GET against the job-detail
endpoint (`/etl/jobs/\x7bid\x7d`) that `_monitor_job_status` performs when it
observes a terminal-failure status.  `ok code errField msgField text` is a
response with the given status code whose JSON body carries the optional
`error` and `message` fields (with `text` the raw body text used when those
are absent); `netError` is a transport-level `RequestException`. -/
inductive DetailOutcome where
  | ok (code : Nat) (errField : Option String) (msgField : Option String) (text : String)
  | netError (msg : String)
deriving DecidableEq

/-- The `error_details` string computed by `_monitor_job_status` from the
detail fetch: for a 200 response it prefers the `error` field, then the
`message` field, then the raw body; for any non-200 response it is empty. -/
def errorDetails (code : Nat) (errField msgField : Option String) (text : String) : String :=
  if code = 200 then
    match errField with
    | some e => "Error details: " ++ e
    | none =>
      match msgField with
      | some m => "Error message: " ++ m
      | none => "Error response: " ++ text
  else ""

/-- The exception message produced by the outer `except RequestException`
handler of `_monitor_job_status` for a failed status check: the underlying
message, with the parsed response body appended when a response is attached. -/
def raisedCheckMsg : CheckOutcome → String
  | .ok _ => ""
  | .httpError (some j) _ => "Failed to check job status: Error details: " ++ j
  | .httpError none text => "Failed to check job status: Error response: " ++ text
  | .netError m => "Failed to check job status: " ++ m

/-- How one run of `_monitor_job_status` ends: normal return on `COMPLETED`;
`jobFailed` is the `Exception("Job failed with status: ...")` raised on a
terminal-failure status, carrying the primary status and the detail string;
`checkFailed` is the `Exception("Failed to check job status: ...")` raised by
the `RequestException` handler. -/
inductive MonitorResult where
  | completed
  | jobFailed (status : String) (details : String)
  | checkFailed (msg : String)
deriving DecidableEq

/-- Observable trace of one `_monitor_job_status` run: how many status GETs
were issued, how many of the 3-second inter-check sleeps ran (the initial
1-second sleep is not counted here), how many detail-endpoint GETs were
attempted, and how the run ended. -/
structure MonitorTrace where
  checks : Nat
  sleeps : Nat
  detailFetches : Nat
  result : MonitorResult
deriving DecidableEq

/-- Fuel-indexed body of the `while True` loop of `_monitor_job_status`
(src/vepi/vena_etl.py lines 306-356).  `i` is the index of the next status
check; every earlier iteration was necessarily non-terminal, so at the check
of index `i` exactly `i + 1` checks and `i` inter-check sleeps have run.
A `COMPLETED` body breaks; an `ERROR` or `CANCELLED` body performs the one
detail fetch and raises `jobFailed` (the detail fetch raising a
`RequestException` is caught by the outer handler and becomes `checkFailed`
instead); any other decoded string is logged and the loop sleeps and
continues; a failed status check raises `checkFailed` at once. -/
def monitorGo (fetch : Nat → CheckOutcome) (detail : DetailOutcome) :
    Nat → Nat → Option MonitorTrace
  | 0, _ => none
  | fuel + 1, i =>
    match fetch i with
    | .ok s =>
      if s = "COMPLETED" then
        some ⟨i + 1, i, 0, .completed⟩
      else if s = "ERROR" ∨ s = "CANCELLED" then
        match detail with
        | .ok code errField msgField text =>
          some ⟨i + 1, i, 1, .jobFailed s (errorDetails code errField msgField text)⟩
        | .netError m =>
          some ⟨i + 1, i, 1, .checkFailed ("Failed to check job status: " ++ m)⟩
      else
        monitorGo fetch detail fuel (i + 1)
    | .httpError jb text => some ⟨i + 1, i, 0, .checkFailed (raisedCheckMsg (.httpError jb text))⟩
    | .netError m => some ⟨i + 1, i, 0, .checkFailed (raisedCheckMsg (.netError m))⟩

/-- Entry point of `_monitor_job_status`: sleep 1 second, then poll from
check index 0. -/
def monitor_job_status (fetch : Nat → CheckOutcome) (detail : DetailOutcome)
    (fuel : Nat) : Option MonitorTrace :=
  monitorGo fetch detail fuel 0

/-- A status-check outcome that the poller classifies as non-terminal: a
successful GET whose decoded string is none of the recognised terminal
values. -/
def nonTerminalOk (c : CheckOutcome) : Prop :=
  ∃ s, c = .ok s ∧ s ≠ "COMPLETED" ∧ s ≠ "ERROR" ∧ s ≠ "CANCELLED"

/-- A status check that raised a `RequestException` (non-2xx or transport). -/
def CheckOutcome.isFail : CheckOutcome → Bool
  | .ok _ => false
  | .httpError _ _ => true
  | .netError _ => true

theorem monitorGo_nonterminal_step (fetch : Nat → CheckOutcome) (detail : DetailOutcome)
    (fuel i : Nat) (s : String) (hs : fetch i = .ok s)
    (h1 : s ≠ "COMPLETED") (h2 : ¬(s = "ERROR" ∨ s = "CANCELLED")) :
    monitorGo fetch detail (fuel + 1) i = monitorGo fetch detail fuel (i + 1) := by
  simp only [monitorGo, hs, if_neg h1, if_neg h2]

theorem monitorGo_completed_step (fetch : Nat → CheckOutcome) (detail : DetailOutcome)
    (fuel i : Nat) (hs : fetch i = .ok "COMPLETED") :
    monitorGo fetch detail (fuel + 1) i = some ⟨i + 1, i, 0, .completed⟩ := by
  simp [monitorGo, hs]

theorem monitorGo_skip (fetch : Nat → CheckOutcome) (detail : DetailOutcome) :
    ∀ (m fuel i : Nat), (∀ j, j < m → nonTerminalOk (fetch (i + j))) →
      monitorGo fetch detail (m + fuel) i = monitorGo fetch detail fuel (i + m) := by
  intro m
  induction m with
  | zero => intro fuel i _; simp
  | succ m ih =>
    intro fuel i h
    obtain ⟨s, hs, hc, he, hx⟩ := h 0 (Nat.succ_pos m)
    have hs0 : fetch i = .ok s := by simpa using hs
    have harith : m + 1 + fuel = (m + fuel) + 1 := by omega
    rw [harith, monitorGo_nonterminal_step fetch detail (m + fuel) i s hs0 hc
      (by rintro (h' | h') <;> [exact he h'; exact hx h'])]
    have h' : ∀ j, j < m → nonTerminalOk (fetch (i + 1 + j)) := by
      intro j hj
      have := h (j + 1) (by omega)
      simpa [Nat.add_assoc, Nat.add_comm 1 j] using this
    rw [ih fuel (i + 1) h']
    congr 1
    omega

theorem monitorGo_terminalFailure_step (fetch : Nat → CheckOutcome) (fuel i : Nat)
    (s : String) (code : Nat) (errField msgField : Option String) (text : String)
    (hs : fetch i = .ok s) (hterm : s = "ERROR" ∨ s = "CANCELLED") :
    monitorGo fetch (.ok code errField msgField text) (fuel + 1) i =
      some ⟨i + 1, i, 1, .jobFailed s (errorDetails code errField msgField text)⟩ := by
  have hnc : s ≠ "COMPLETED" := by rcases hterm with h | h <;> (subst h; decide)
  simp only [monitorGo, hs, if_neg hnc, if_pos hterm]

theorem monitorGo_checkFail_step (fetch : Nat → CheckOutcome) (detail : DetailOutcome)
    (fuel i : Nat) (hf : (fetch i).isFail = true) :
    monitorGo fetch detail (fuel + 1) i =
      some ⟨i + 1, i, 0, .checkFailed (raisedCheckMsg (fetch i))⟩ := by
  cases hfi : fetch i with
  | ok s => rw [hfi] at hf; simp [CheckOutcome.isFail] at hf
  | httpError jb text => simp only [monitorGo, hfi]
  | netError m => simp only [monitorGo, hfi]

/-- Result of one run of the inline polling loops in src/main.py
(`start_with_data` lines 59-81 and `start_with_file` lines 122-143): both
loops only ever `break` (on `COMPLETED`, or on `ERROR`/`CANCELLED` after a
stderr message); a failed status check is printed and the loop continues. -/
inductive MainPollResult where
  | completedEnd
  | endedWith (status : String)
deriving DecidableEq

/-- Observable trace of one main.py polling loop: status GETs issued and how
the loop ended. -/
structure MainPollTrace where
  checks : Nat
  result : MainPollResult
deriving DecidableEq

/-- Fuel-indexed body of the `while True` polling loop shared by main.py
`start_with_data` and `start_with_file`.  Unlike `_monitor_job_status`, the
`except RequestException` branch only prints the error and falls through to
the sleep, so polling continues after a failed check. -/
def mainPollGo (fetch : Nat → CheckOutcome) : Nat → Nat → Option MainPollTrace
  | 0, _ => none
  | fuel + 1, i =>
    match fetch i with
    | .ok s =>
      if s = "COMPLETED" then some ⟨i + 1, .completedEnd⟩
      else if s = "ERROR" ∨ s = "CANCELLED" then some ⟨i + 1, .endedWith s⟩
      else mainPollGo fetch fuel (i + 1)
    | .httpError _ _ => mainPollGo fetch fuel (i + 1)
    | .netError _ => mainPollGo fetch fuel (i + 1)

/-- A pandas DataFrame, reduced to what the client inspects: column labels and
the list of value rows (`df.values.tolist()` yields exactly `rows`). -/
structure DataFrame where
  columns : List String
  rows : List (List String)
deriving DecidableEq

/-- The pandas `df.empty` test: true when either axis has length zero. -/
def DataFrame.isEmptyDF (df : DataFrame) : Bool :=
  df.rows.isEmpty || df.columns.isEmpty

/-- The two runtime shapes `start_with_data` accepts: a DataFrame (converted
through `_convert_dataframe_to_array`, which validates) or a plain list of
rows (passed through untouched). -/
inductive InlineInput where
  | frame (df : DataFrame)
  | rawRows (rs : List (List String))
deriving DecidableEq

/-- What `start_with_data` (src/vepi/vena_etl.py lines 130-141) does before
any network traffic: either it raises the `ValueError` from
`_validate_dataframe`, or it reaches the POST with the given row data as the
`input.data` payload. -/
inductive StartWithDataAction where
  | validationError (msg : String)
  | post (data : List (List String))
deriving DecidableEq

/-- Pre-network phase of `start_with_data`: a DataFrame goes through
`_convert_dataframe_to_array`, which calls `_validate_dataframe` (raising on
an empty frame) and then takes `df.values.tolist()`; any other input is used
as the POST payload directly, with no validation. -/
def start_with_data_request : InlineInput → StartWithDataAction
  | .frame df =>
    if df.isEmptyDF then .validationError "DataFrame cannot be empty"
    else .post df.rows
  | .rawRows rs => .post rs

/-- `import_dataframe` (src/vepi/vena_etl.py lines 358-367): validate the
frame, then delegate to `start_with_data` with the frame. -/
def import_dataframe_request (df : DataFrame) : StartWithDataAction :=
  if df.isEmptyDF then .validationError "DataFrame cannot be empty"
  else start_with_data_request (.frame df)

/-- Outcome of the `startWithData` POST: a response with status code and the
optional `id` field of its decoded JSON body, or a transport exception. -/
inductive PostOutcome where
  | ok (code : Nat) (jobId : Option String)
  | netError (msg : String)
deriving DecidableEq

/-- Message text of the `HTTPError` that `raise_for_status` raises for a
non-2xx response. -/
def httpStatusMsg (code : Nat) : String :=
  "HTTP error " ++ toString code

/-- How one call of `start_with_data` (src/vepi/vena_etl.py lines 140-154)
ends, given the POST outcome.  `returnedNone logged` is the
`except RequestException` branch: the message is printed to stderr and the
function returns `None` without raising and without polling.  `keyError` is
the uncaught `KeyError` from `response.json()['id']` when the 2xx body has
no `id`.  `monitored t` records that polling ran with trace `t`; on
`t.result = completed` the function then returns `None` normally, otherwise
the monitor exception propagates. -/
inductive StartDataResult where
  | returnedNone (logged : String)
  | keyError
  | monitored (t : MonitorTrace)
deriving DecidableEq

/-- Whether the caller of `start_with_data` sees an exception. -/
def StartDataResult.raisesToCaller : StartDataResult → Bool
  | .returnedNone _ => false
  | .keyError => true
  | .monitored t =>
    match t.result with
    | .completed => false
    | .jobFailed _ _ => true
    | .checkFailed _ => true

/-- The try block of `start_with_data` from the POST onwards: a transport
exception or a non-2xx response is caught, logged with its cause, and the
function returns `None`; a 2xx response without an `id` raises `KeyError`;
otherwise `_monitor_job_status` runs. -/
def start_with_data_run (post : PostOutcome) (fetch : Nat → CheckOutcome)
    (detail : DetailOutcome) (fuel : Nat) : Option StartDataResult :=
  match post with
  | .netError m => some (.returnedNone ("Failed to start ETL job: " ++ m))
  | .ok code mid =>
    if 400 ≤ code then
      some (.returnedNone ("Failed to start ETL job: " ++ httpStatusMsg code))
    else
      match mid with
      | none => some .keyError
      | some _ => (monitorGo fetch detail fuel 0).map .monitored

/-- How one call of `process_data` (src/vepi/vena_etl.py lines 604-629) ends.
`start_with_data` contains no `return` statement with a value, so its result
is always `None`; hence every path on which `start_with_data` returns
normally makes `job_info['id']` raise `TypeError`, and `submit_job` and
`wait_for_job_completion` are unreachable. -/
inductive ProcessDataResult where
  | validationError (msg : String)
  | typeError
  | keyErrorRaised
  | raisedFromMonitor (r : MonitorResult)
deriving DecidableEq

/-- `process_data`: run `start_with_data`, then subscript its `None` return
value.  Exceptions from `start_with_data` propagate; normal returns hit the
`TypeError` from `None['id']` before `submit_job` is ever called. -/
def process_data_run (input : InlineInput) (post : PostOutcome)
    (fetch : Nat → CheckOutcome) (detail : DetailOutcome) (fuel : Nat) :
    Option ProcessDataResult :=
  match start_with_data_request input with
  | .validationError m => some (.validationError m)
  | .post _ =>
    match start_with_data_run post fetch detail fuel with
    | none => none
    | some (.returnedNone _) => some .typeError
    | some .keyError => some .keyErrorRaised
    | some (.monitored t) =>
      match t.result with
      | .completed => some .typeError
      | .jobFailed s d => some (.raisedFromMonitor (.jobFailed s d))
      | .checkFailed m => some (.raisedFromMonitor (.checkFailed m))

/-- How one run of `wait_for_job_completion` (src/vepi/vena_etl.py lines
577-602) ends: `terminal` is the normal return when the structured status is
`COMPLETED` or `FAILED`; `timedOut` is the raised `TimeoutError`.  Each
carries the number of `get_job_status` calls issued.  No other exception
exists on this path: every other status string just keeps the loop going. -/
inductive WaitOutcome where
  | terminal (status : String) (checks : Nat)
  | timedOut (checks : Nat)
deriving DecidableEq

/-- Fuel-indexed body of the `while True` loop of `wait_for_job_completion`.
`i` is the index of the next status check and `elapsed` the idealized
wall-clock time since `start_time` (checks are instantaneous; each
`time.sleep(poll_interval)` advances it by `pollInterval`).  Note the order
in the source: the status is fetched and tested first, the deadline is
tested second, the sleep comes last. -/
def waitGo (statuses : Nat → String) (pollInterval timeoutVal : Nat) :
    Nat → Nat → Nat → Option WaitOutcome
  | 0, _, _ => none
  | fuel + 1, i, elapsed =>
    if statuses i = "COMPLETED" ∨ statuses i = "FAILED" then
      some (.terminal (statuses i) (i + 1))
    else if timeoutVal < elapsed then
      some (.timedOut (i + 1))
    else
      waitGo statuses pollInterval timeoutVal fuel (i + 1) (elapsed + pollInterval)

/-- Entry point of `wait_for_job_completion`: `start_time = time.time()`,
then poll from check index 0 with zero elapsed time. -/
def wait_for_job_completion (statuses : Nat → String)
    (pollInterval timeoutVal fuel : Nat) : Option WaitOutcome :=
  waitGo statuses pollInterval timeoutVal fuel 0 0

/-- One part of a multipart request body, reduced to what the `files` dict of
the source fixes: the part name (the dict key), the attached filename, and
the content type. -/
structure MultipartPart where
  partName : String
  filename : String
  contentType : String
deriving DecidableEq

/-- The metadata JSON built by vepi `start_with_file` (the `input` object). -/
structure FileMetadata where
  metaPartName : String
  fileFormat : String
  fileEncoding : String
  fileName : String
deriving DecidableEq

/-- What a `start_with_file` implementation does before the POST response
arrives: raise the emptiness `ValueError`, or issue the POST with the given
multipart parts and (for the vepi variant) the metadata JSON. -/
inductive FileRequest where
  | validationError (msg : String)
  | request (parts : List MultipartPart) (metadata : Option FileMetadata)
deriving DecidableEq

/-- Python `str.strip()` whitespace set (the characters stripped by default). -/
def isPySpace (c : Char) : Bool :=
  c = ' ' || c = '\t' || c = '\n' || c = '\x0d' || c = '\x0b' || c = '\x0c'

/-- The test `not file_content.strip()`: true exactly when every character of
the content is whitespace (in particular when the content is empty). -/
def stripIsEmpty (s : String) : Bool :=
  s.data.all isPySpace

/-- Request-building phase of vepi `start_with_file` (src/vepi/vena_etl.py
lines 221-260), starting from the resolved file content and filename: empty
(whitespace-only) content raises `ValueError("File is empty")` before any
network call; otherwise the multipart body has exactly the parts `file` and
`metadata`, with the metadata JSON fixing fileFormat CSV and fileEncoding
UTF-8. -/
def vepi_start_with_file_request (fileContent filename : String) : FileRequest :=
  if stripIsEmpty fileContent then .validationError "File is empty"
  else
    .request
      [⟨"file", filename, "text/csv; charset=utf-8"⟩,
       ⟨"metadata", "metadata.json", "application/json"⟩]
      (some ⟨"file", "CSV", "UTF-8", filename⟩)

/-- Request-building phase of main.py `start_with_file` (src/main.py lines
83-113), starting from the CSV text produced by `to_csv`: no emptiness
check, and the `files` dict has the single key `file` with content type
`text/csv` and no metadata part. -/
def main_start_with_file_request (_csvData filename : String) : FileRequest :=
  .request [⟨"file", filename, "text/csv"⟩] none

/-- One page returned by the intersections endpoint: the `data` rows (whose
first row is a header), the `metadata.headers` column names, and the
`metadata.nextPage` continuation URL (absent or null when there is no next
page). -/
structure Page where
  data : List (List String)
  headers : List String
  nextPage : Option String
deriving DecidableEq

/-- Python truthiness of the `nextPage` value: `None` and the empty string
are falsy, any other string keeps the `while next_page_url` loop going. -/
def truthyOpt : Option String → Bool
  | none => false
  | some s => !(s = "")

/-- Fuel-free body of the pagination loop of `export_data`
(src/vepi/vena_etl.py lines 369-415): the remote side is modelled as the
list of pages it will serve in order.  Each iteration appends
`data_response['data'][1:]` (dropping the header row of every page) to the
accumulator and continues while `metadata.nextPage` is truthy; when the list
is exhausted but a next page was requested, the GET fails and `export_data`
returns `None`.  On exit the column names are the final page's
`metadata.headers`. -/
def exportGo : List Page → List (List String) →
    Option (List (List String) × List String)
  | [], _ => none
  | p :: rest, acc =>
    let acc2 := acc ++ p.data.drop 1
    if truthyOpt p.nextPage then exportGo rest acc2
    else some (acc2, p.headers)

/-- `export_data`, starting from the first requested page with an empty
accumulator. -/
def export_data (pages : List Page) : Option (List (List String) × List String) :=
  exportGo pages []

/-- Whether a monitor exception is the job-failure exception carrying `s` as
its primary status. -/
def MonitorResult.isJobFailedCarrying (r : MonitorResult) (s : String) : Bool :=
  match r with
  | .jobFailed s2 _ => s2 == s
  | .completed => false
  | .checkFailed _ => false

/-- Part names of the multipart body a file-submission request would send. -/
def FileRequest.requestPartNames : FileRequest → List String
  | .validationError _ => []
  | .request parts _ => parts.map MultipartPart.partName

theorem waitGo_nonterminal_step (statuses : Nat → String) (p t fuel i e : Nat)
    (h1 : ¬(statuses i = "COMPLETED" ∨ statuses i = "FAILED")) (h2 : ¬ t < e) :
    waitGo statuses p t (fuel + 1) i e = waitGo statuses p t fuel (i + 1) (e + p) := by
  simp only [waitGo, if_neg h1, if_neg h2]

theorem waitGo_timeout_step (statuses : Nat → String) (p t fuel i e : Nat)
    (h1 : ¬(statuses i = "COMPLETED" ∨ statuses i = "FAILED")) (h2 : t < e) :
    waitGo statuses p t (fuel + 1) i e = some (.timedOut (i + 1)) := by
  simp only [waitGo, if_neg h1, if_pos h2]

theorem waitGo_times_out (statuses : Nat → String) (p t : Nat)
    (h : ∀ n, statuses n ≠ "COMPLETED" ∧ statuses n ≠ "FAILED") :
    ∀ (f i e : Nat), t < e + f * p →
      ∃ k, waitGo statuses p t (f + 1) i e = some (.timedOut k) := by
  intro f
  induction f with
  | zero =>
    intro i e he
    simp only [Nat.zero_mul, Nat.add_zero] at he
    exact ⟨i + 1, waitGo_timeout_step statuses p t 0 i e
      (fun hc => hc.elim (h i).1 (h i).2) he⟩
  | succ f ih =>
    intro i e he
    by_cases hte : t < e
    · exact ⟨i + 1, waitGo_timeout_step statuses p t (f + 1) i e
        (fun hc => hc.elim (h i).1 (h i).2) hte⟩
    · rw [waitGo_nonterminal_step statuses p t (f + 1) i e
        (fun hc => hc.elim (h i).1 (h i).2) hte]
      refine ih (i + 1) (e + p) ?_
      have hmul : (f + 1) * p = f * p + p := Nat.succ_mul f p
      omega

/-- Claim C1 (code_bug): the docstring and spec say `process_data` submits the
inline data, extracts the job id from the submission result, calls
`submit_job`, and waits; but `start_with_data` always returns `None` (its only
return statements are bare), so on the happy path - valid rows, a 2xx POST
response carrying an id, and a first status check of `COMPLETED` -
`process_data` raises `TypeError` subscripting `None` and `submit_job` and
`wait_for_job_completion` are never reached. -/
theorem process_data_subscripts_none :
    process_data_run (.rawRows [["Year", "Amount"]]) (.ok 200 (some "J1"))
      (fun _ => CheckOutcome.ok "COMPLETED") (.ok 200 none none "") 5 = some .typeError := rfl

/-- Claim C2 counterexample: when the `startWithData` POST fails with a
transport error, `start_with_data` does not fail with any submission error:
it logs the cause to stderr and returns `None`, so the caller sees a normal
return (`raisesToCaller` is `false`), contradicting the claim that the
operation fails with a `SubmissionError`. -/
theorem start_with_data_post_failure_does_not_raise :
    start_with_data_run (.netError "connection refused") (fun _ => CheckOutcome.ok "COMPLETED")
        (.ok 200 none none "") 5 =
      some (.returnedNone "Failed to start ETL job: connection refused") ∧
    (start_with_data_run (.netError "connection refused") (fun _ => CheckOutcome.ok "COMPLETED")
        (.ok 200 none none "") 5).map StartDataResult.raisesToCaller = some false :=
  ⟨rfl, rfl⟩

/-- Claim C2 (amended): if the `startWithData` POST fails with a transport
error or a non-2xx status, `start_with_data` logs the failure with its
underlying cause to stderr and returns `None` without raising, and no status
polling is performed for that call (the outcome is the same for every status
source and every fuel, and the logged message carries the cause). -/
theorem start_with_data_post_failure_logs_and_skips_polling (m : String) (code : Nat)
    (mid : Option String) (fetch : Nat → CheckOutcome) (detail : DetailOutcome) (fuel : Nat)
    (hcode : 400 ≤ code) :
    start_with_data_run (.netError m) fetch detail fuel =
        some (.returnedNone ("Failed to start ETL job: " ++ m)) ∧
    start_with_data_run (.ok code mid) fetch detail fuel =
        some (.returnedNone ("Failed to start ETL job: " ++ httpStatusMsg code)) ∧
    (start_with_data_run (.netError m) fetch detail fuel).map StartDataResult.raisesToCaller =
        some false := by
  refine ⟨rfl, ?_, rfl⟩
  simp [start_with_data_run, hcode]

/-- Witness for the amended claim C2 at a concrete failing POST. -/
theorem start_with_data_post_failure_witness :
    400 ≤ 500 ∧
    (start_with_data_run (.netError "boom") (fun _ => CheckOutcome.ok "RUNNING")
        (.ok 200 none none "") 3 =
      some (.returnedNone ("Failed to start ETL job: " ++ "boom")) ∧
    start_with_data_run (.ok 500 none) (fun _ => CheckOutcome.ok "RUNNING")
        (.ok 200 none none "") 3 =
      some (.returnedNone ("Failed to start ETL job: " ++ httpStatusMsg 500)) ∧
    (start_with_data_run (.netError "boom") (fun _ => CheckOutcome.ok "RUNNING")
        (.ok 200 none none "") 3).map StartDataResult.raisesToCaller = some false) :=
  ⟨by decide, start_with_data_post_failure_logs_and_skips_polling "boom" 500 none
    (fun _ => CheckOutcome.ok "RUNNING") (.ok 200 none none "") 3 (by decide)⟩

/-- Claim C3 counterexample: the polling loop of main.py `start_with_data` and
`start_with_file` does continue polling after a failed status check - with a
transport error on the first check and `COMPLETED` on the second, the loop
issues a second check and finishes normally instead of re-raising. -/
theorem main_poll_continues_after_failed_check :
    mainPollGo (fun i => if i = 0 then CheckOutcome.netError "boom" else CheckOutcome.ok "COMPLETED")
      3 0 = some ⟨2, .completedEnd⟩ := rfl

/-- Claim C3 (amended): in the vepi `_monitor_job_status` poller, a status
check that fails at the transport level (network error or non-2xx), after any
prefix of non-terminal checks, is logged with the parseable server detail and
re-raised immediately: the run ends at that check (exactly `n + 1` checks,
nothing after it, independent of later status values), and the raised message
carries the parsed detail.  The main.py polling loops instead log and keep
polling. -/
theorem monitor_failed_check_raises_immediately (fetch : Nat → CheckOutcome)
    (detail : DetailOutcome) (n : Nat)
    (hpre : ∀ j, j < n → nonTerminalOk (fetch j))
    (hfail : (fetch n).isFail = true) :
    monitor_job_status fetch detail (n + 1) =
      some ⟨n + 1, n, 0, .checkFailed (raisedCheckMsg (fetch n))⟩ := by
  have hskip := monitorGo_skip fetch detail n 1 0 (by intro j hj; simpa using hpre j hj)
  simp only [monitor_job_status]
  rw [hskip, Nat.zero_add]
  exact monitorGo_checkFail_step fetch detail 0 n hfail

/-- Witness for the amended claim C3 at a concrete run: one non-terminal
check, then a transport failure on the second check. -/
theorem monitor_failed_check_witness :
    (∀ j, j < 1 → nonTerminalOk
      ((fun i => if i = 0 then CheckOutcome.ok "PENDING" else CheckOutcome.netError "down") j)) ∧
    monitor_job_status
        (fun i => if i = 0 then CheckOutcome.ok "PENDING" else CheckOutcome.netError "down")
        (.ok 200 none none "") 2 =
      some ⟨2, 1, 0, .checkFailed
        (raisedCheckMsg ((fun i => if i = 0 then CheckOutcome.ok "PENDING"
          else CheckOutcome.netError "down") 1))⟩ := by
  have hpre : ∀ j, j < 1 → nonTerminalOk
      ((fun i => if i = 0 then CheckOutcome.ok "PENDING" else CheckOutcome.netError "down") j) := by
    intro j hj
    have hj0 : j = 0 := by omega
    subst hj0
    exact ⟨"PENDING", rfl, by decide, by decide, by decide⟩
  exact ⟨hpre, monitor_failed_check_raises_immediately
    (fun i => if i = 0 then CheckOutcome.ok "PENDING" else CheckOutcome.netError "down")
    (.ok 200 none none "") 1 hpre (by decide)⟩

/-- Claim C4 counterexample: with `timeout = 5`, `poll_interval = 10` and an
always non-terminal status source, `wait_for_job_completion` does issue a
second status check: the deadline is only tested after each poll, and at the
first poll no time has elapsed, so the run ends in `TimeoutError` after two
checks, not one. -/
theorem wait_short_timeout_two_checks :
    wait_for_job_completion (fun _ => "RUNNING") 10 5 3 = some (.timedOut 2) ∧
    wait_for_job_completion (fun _ => "RUNNING") 10 5 3 ≠ some (.timedOut 1) :=
  ⟨rfl, by decide⟩

/-- Claim C4 (amended): `wait_for_job_completion` with `timeout = 5` and
`poll_interval = 10` against an always non-terminal status source raises
`TimeoutError`, after exactly two status checks: at the first check the
elapsed time is 0, which does not exceed the timeout, so the loop sleeps one
full interval and re-polls once before the deadline test fires. -/
theorem wait_short_timeout_raises_after_second_check (statuses : Nat → String) (f : Nat)
    (h : ∀ n, statuses n ≠ "COMPLETED" ∧ statuses n ≠ "FAILED") :
    wait_for_job_completion statuses 10 5 (f + 2) = some (.timedOut 2) := by
  simp only [wait_for_job_completion]
  rw [show f + 2 = (f + 1) + 1 from rfl,
    waitGo_nonterminal_step statuses 10 5 (f + 1) 0 0
      (fun hc => hc.elim (h 0).1 (h 0).2) (by omega)]
  exact waitGo_timeout_step statuses 10 5 f 1 10
    (fun hc => hc.elim (h 1).1 (h 1).2) (by omega)

/-- Witness for the amended claim C4 at a concrete status source. -/
theorem wait_short_timeout_witness :
    (∀ n : Nat, (fun _ : Nat => "PENDING") n ≠ "COMPLETED" ∧
      (fun _ : Nat => "PENDING") n ≠ "FAILED") ∧
    wait_for_job_completion (fun _ => "PENDING") 10 5 2 = some (.timedOut 2) :=
  ⟨fun _ => ⟨show ("PENDING" : String) ≠ "COMPLETED" by decide,
     show ("PENDING" : String) ≠ "FAILED" by decide⟩,
   wait_short_timeout_raises_after_second_check (fun _ => "PENDING") 0
     (fun _ => ⟨show ("PENDING" : String) ≠ "COMPLETED" by decide,
       show ("PENDING" : String) ≠ "FAILED" by decide⟩)⟩

/-- Claim C5 counterexample: when the status sequence is `[ERROR]` and the one
extended-detail fetch itself raises a transport exception, that failure is not
swallowed: it is caught by the status-check `RequestException` handler and
re-raised as `Failed to check job status`, so no job-failure error carrying
the primary status `ERROR` is raised at all. -/
theorem monitor_detail_fetch_exception_escalates :
    monitor_job_status (fun _ => CheckOutcome.ok "ERROR") (.netError "connection reset") 1 =
      some ⟨1, 0, 1, .checkFailed "Failed to check job status: connection reset"⟩ ∧
    (monitor_job_status (fun _ => CheckOutcome.ok "ERROR") (.netError "connection reset") 1).map
        (fun tr => tr.result.isJobFailedCarrying "ERROR") = some false :=
  ⟨rfl, rfl⟩

/-- Claim C5 (amended): on observing a terminal-failure status (`ERROR` or
`CANCELLED`, after any prefix of non-terminal checks), the poller attempts
exactly one extended-detail fetch and raises the job-failure error carrying
that status; when the detail fetch returns a response - of any status code,
2xx or not - its failure mode is swallowed (a non-200 code just yields an
empty detail string) and the primary status is unchanged.  Only a
transport-level exception from the detail fetch escapes to the status-check
handler instead. -/
theorem monitor_terminal_failure_one_detail_fetch (fetch : Nat → CheckOutcome) (n : Nat)
    (s : String) (code : Nat) (errField msgField : Option String) (text : String)
    (hpre : ∀ j, j < n → nonTerminalOk (fetch j))
    (hs : fetch n = .ok s) (hterm : s = "ERROR" ∨ s = "CANCELLED") :
    monitor_job_status fetch (.ok code errField msgField text) (n + 1) =
      some ⟨n + 1, n, 1, .jobFailed s (errorDetails code errField msgField text)⟩ := by
  have hskip := monitorGo_skip fetch (.ok code errField msgField text) n 1 0
    (by intro j hj; simpa using hpre j hj)
  simp only [monitor_job_status]
  rw [hskip, Nat.zero_add]
  exact monitorGo_terminalFailure_step fetch 0 n s code errField msgField text hs hterm

/-- Witness for the amended claim C5: status sequence `[CANCELLED]` with a 404
detail response, whose failure is swallowed into an empty detail string while
the primary status is preserved. -/
theorem monitor_terminal_failure_witness :
    ((fun _ : Nat => CheckOutcome.ok "CANCELLED") 0 = CheckOutcome.ok "CANCELLED") ∧
    monitor_job_status (fun _ => CheckOutcome.ok "CANCELLED") (.ok 404 none none "not found") 1 =
      some ⟨1, 0, 1, .jobFailed "CANCELLED" (errorDetails 404 none none "not found")⟩ ∧
    errorDetails 404 none none "not found" = "" :=
  ⟨rfl, monitor_terminal_failure_one_detail_fetch (fun _ => CheckOutcome.ok "CANCELLED") 0
    "CANCELLED" 404 none none "not found" (fun j hj => absurd hj (by omega)) rfl
    (Or.inr rfl), rfl⟩

/-- Claim C6 counterexample: an empty plain row list handed directly to
`start_with_data` is not validated at all - the operation proceeds to the
POST with empty data instead of raising a `ValidationError`. -/
theorem start_with_data_empty_list_posts :
    start_with_data_request (.rawRows []) = .post [] ∧
    start_with_data_request (.rawRows []) ≠ .validationError "DataFrame cannot be empty" :=
  ⟨rfl, by decide⟩

/-- Claim C6 (amended): an empty DataFrame given to `start_with_data` or
`import_dataframe` raises `ValueError("DataFrame cannot be empty")` before any
network call; a non-empty DataFrame proceeds to the POST with its rows, and a
plain row list - empty or not - bypasses validation and proceeds straight to
the POST. -/
theorem start_with_data_empty_frame_validation (df df2 : DataFrame) (rs : List (List String))
    (h : df.isEmptyDF = true) (h2 : df2.isEmptyDF = false) :
    start_with_data_request (.frame df) = .validationError "DataFrame cannot be empty" ∧
    import_dataframe_request df = .validationError "DataFrame cannot be empty" ∧
    start_with_data_request (.frame df2) = .post df2.rows ∧
    start_with_data_request (.rawRows rs) = .post rs := by
  refine ⟨?_, ?_, ?_, rfl⟩ <;>
    simp [start_with_data_request, import_dataframe_request, h, h2]

/-- Witness for the amended claim C6 at concrete frames and row lists. -/
theorem start_with_data_empty_frame_witness :
    DataFrame.isEmptyDF ⟨["A"], []⟩ = true ∧
    DataFrame.isEmptyDF ⟨["A"], [["1"]]⟩ = false ∧
    (start_with_data_request (.frame ⟨["A"], []⟩) =
        .validationError "DataFrame cannot be empty" ∧
      import_dataframe_request ⟨["A"], []⟩ = .validationError "DataFrame cannot be empty" ∧
      start_with_data_request (.frame ⟨["A"], [["1"]]⟩) =
        .post (DataFrame.rows ⟨["A"], [["1"]]⟩) ∧
      start_with_data_request (.rawRows [["x"]]) = .post [["x"]]) :=
  ⟨by decide, by decide,
   start_with_data_empty_frame_validation ⟨["A"], []⟩ ⟨["A"], [["1"]]⟩ [["x"]]
     (by decide) (by decide)⟩

/-- Claim C7 counterexample: the main.py `start_with_file` sends a multipart
body with a single part named `file` and no `metadata` part, and performs no
emptiness validation (even empty CSV content is sent), contradicting the
claim for every call of the file-submission operation. -/
theorem main_start_with_file_single_part :
    (main_start_with_file_request "A,B\n1,2\n" "data.csv").requestPartNames = ["file"] ∧
    (main_start_with_file_request "" "data.csv").requestPartNames = ["file"] :=
  ⟨rfl, rfl⟩

/-- Claim C7 (amended): the vepi `start_with_file` raises
`ValueError("File is empty")` for empty (whitespace-only) content before any
network call, and with non-empty content builds a multipart body with exactly
the two parts `file` and `metadata`, whose metadata JSON fixes
`fileFormat = "CSV"` and `fileEncoding = "UTF-8"`.  The main.py variant sends
a single `file` part with no metadata and no validation. -/
theorem vepi_start_with_file_two_parts (c1 c2 filename : String)
    (h1 : stripIsEmpty c1 = true) (h2 : stripIsEmpty c2 = false) :
    vepi_start_with_file_request c1 filename = .validationError "File is empty" ∧
    vepi_start_with_file_request c2 filename =
      .request
        [⟨"file", filename, "text/csv; charset=utf-8"⟩,
         ⟨"metadata", "metadata.json", "application/json"⟩]
        (some ⟨"file", "CSV", "UTF-8", filename⟩) := by
  constructor <;> simp [vepi_start_with_file_request, h1, h2]

/-- Witness for the amended claim C7 at concrete contents. -/
theorem vepi_start_with_file_witness :
    stripIsEmpty "" = true ∧
    stripIsEmpty "A,B" = false ∧
    (vepi_start_with_file_request "" "up.csv" = .validationError "File is empty" ∧
      vepi_start_with_file_request "A,B" "up.csv" =
        .request
          [⟨"file", "up.csv", "text/csv; charset=utf-8"⟩,
           ⟨"metadata", "metadata.json", "application/json"⟩]
          (some ⟨"file", "CSV", "UTF-8", "up.csv"⟩)) :=
  ⟨by decide, by decide,
   vepi_start_with_file_two_parts "" "A,B" "up.csv" (by decide) (by decide)⟩

/-- Claim C8 (confirmed): for every status sequence of `n` non-terminal values
(any strings outside the recognised terminal set, so in particular
unrecognized values, which are logged and never error) followed by
`COMPLETED`, `_monitor_job_status` issues exactly `n + 1` status checks -
the length of the sequence - sleeps exactly `n` times between consecutive
checks, performs no detail fetch, and stops at the `COMPLETED` observation
with a normal return. -/
theorem monitor_nonterminal_then_completed (fetch : Nat → CheckOutcome)
    (detail : DetailOutcome) (n : Nat)
    (hpre : ∀ j, j < n → nonTerminalOk (fetch j))
    (hend : fetch n = .ok "COMPLETED") :
    monitor_job_status fetch detail (n + 1) = some ⟨n + 1, n, 0, .completed⟩ := by
  have hskip := monitorGo_skip fetch detail n 1 0 (by intro j hj; simpa using hpre j hj)
  simp only [monitor_job_status]
  rw [hskip, Nat.zero_add]
  exact monitorGo_completed_step fetch detail 0 n hend

/-- Witness for claim C8: two unrecognized non-terminal statuses followed by
`COMPLETED` give three checks and two sleeps. -/
theorem monitor_nonterminal_then_completed_witness :
    (∀ j, j < 2 → nonTerminalOk
      ((fun i => if i < 2 then CheckOutcome.ok "WARMING_UP" else CheckOutcome.ok "COMPLETED") j)) ∧
    monitor_job_status
        (fun i => if i < 2 then CheckOutcome.ok "WARMING_UP" else CheckOutcome.ok "COMPLETED")
        (.ok 200 none none "") 3 =
      some ⟨3, 2, 0, .completed⟩ := by
  have hpre : ∀ j, j < 2 → nonTerminalOk
      ((fun i => if i < 2 then CheckOutcome.ok "WARMING_UP" else CheckOutcome.ok "COMPLETED") j) := by
    intro j hj
    exact ⟨"WARMING_UP", by simp [hj], by decide, by decide, by decide⟩
  exact ⟨hpre, monitor_nonterminal_then_completed
    (fun i => if i < 2 then CheckOutcome.ok "WARMING_UP" else CheckOutcome.ok "COMPLETED")
    (.ok 200 none none "") 2 hpre (by decide)⟩

/-- Claim C9 (confirmed): for a two-page export where page 1 has a truthy
`nextPage` and page 2 has none, `export_data` aggregates the two pages with
each page's first (header) row dropped, yielding exactly
`(rows(page1) - 1) + (rows(page2) - 1)` records, and names the columns from
the final page's `metadata.headers`. -/
theorem export_two_pages_aggregate (p1 p2 : Page)
    (h1 : truthyOpt p1.nextPage = true) (h2 : truthyOpt p2.nextPage = false) :
    export_data [p1, p2] = some (p1.data.drop 1 ++ p2.data.drop 1, p2.headers) ∧
    (p1.data.drop 1 ++ p2.data.drop 1).length =
      (p1.data.length - 1) + (p2.data.length - 1) := by
  constructor
  · simp [export_data, exportGo, h1, h2]
  · simp [List.length_append, List.length_drop]

/-- Witness for claim C9 at concrete pages (three data rows then two). -/
theorem export_two_pages_witness :
    truthyOpt (Page.nextPage ⟨[["h1"], ["a"], ["b"]], ["X"], some "u2"⟩) = true ∧
    truthyOpt (Page.nextPage ⟨[["h2"], ["c"]], ["Y"], none⟩) = false ∧
    (export_data [⟨[["h1"], ["a"], ["b"]], ["X"], some "u2"⟩, ⟨[["h2"], ["c"]], ["Y"], none⟩] =
        some ((Page.data ⟨[["h1"], ["a"], ["b"]], ["X"], some "u2"⟩).drop 1 ++
          (Page.data ⟨[["h2"], ["c"]], ["Y"], none⟩).drop 1,
          Page.headers ⟨[["h2"], ["c"]], ["Y"], none⟩) ∧
      ((Page.data ⟨[["h1"], ["a"], ["b"]], ["X"], some "u2"⟩).drop 1 ++
          (Page.data ⟨[["h2"], ["c"]], ["Y"], none⟩).drop 1).length =
        ((Page.data ⟨[["h1"], ["a"], ["b"]], ["X"], some "u2"⟩).length - 1) +
          ((Page.data ⟨[["h2"], ["c"]], ["Y"], none⟩).length - 1)) :=
  ⟨by decide, by decide,
   export_two_pages_aggregate ⟨[["h1"], ["a"], ["b"]], ["X"], some "u2"⟩
     ⟨[["h2"], ["c"]], ["Y"], none⟩ (by decide) (by decide)⟩

/-- Claim C10 (confirmed): `wait_for_job_completion` treats only `COMPLETED`
and `FAILED` as terminal.  Against any status source that never reports
either (in particular one reporting `ERROR` or `CANCELLED` forever), and any
positive poll interval, it never raises a job-failure error - the only
possible outcomes of the loop are a terminal return or `TimeoutError` - and
keeps polling until the deadline passes, ending in `TimeoutError`. -/
theorem wait_nonterminal_times_out (statuses : Nat → String) (p t : Nat)
    (hp : 1 ≤ p) (h : ∀ n, statuses n ≠ "COMPLETED" ∧ statuses n ≠ "FAILED") :
    ∃ k, wait_for_job_completion statuses p t (t + 2) = some (.timedOut k) := by
  have hlt : t < 0 + (t + 1) * p := by
    have hmul : (t + 1) * 1 ≤ (t + 1) * p := Nat.mul_le_mul_left (t + 1) hp
    omega
  exact waitGo_times_out statuses p t h (t + 1) 0 0 hlt

/-- Witness for claim C10: a status source stuck on `ERROR` with poll
interval 5 and timeout 7 ends in `TimeoutError`, never in a job failure. -/
theorem wait_nonterminal_times_out_witness :
    (1 : Nat) ≤ 5 ∧
    (∀ n : Nat, (fun _ : Nat => "ERROR") n ≠ "COMPLETED" ∧
      (fun _ : Nat => "ERROR") n ≠ "FAILED") ∧
    ∃ k, wait_for_job_completion (fun _ => "ERROR") 5 7 (7 + 2) = some (.timedOut k) :=
  ⟨by decide, fun _ => ⟨show ("ERROR" : String) ≠ "COMPLETED" by decide,
     show ("ERROR" : String) ≠ "FAILED" by decide⟩,
   wait_nonterminal_times_out (fun _ => "ERROR") 5 7 (by decide)
     (fun _ => ⟨show ("ERROR" : String) ≠ "COMPLETED" by decide,
       show ("ERROR" : String) ≠ "FAILED" by decide⟩)⟩

end VepiSpec
